import Mathlib

set_option autoImplicit false

/-!
Shallow embedding of the dataset-builder web scraper clients
(src/webscraper/clients.py): the abstract SearchClient base class and its
two adapters, GoogleCustomSearchClient and BingSearchClient.

JSON response bodies are modelled by an inductive `Json` type; Python
dictionaries by association lists with dict-update semantics; keyword
arguments (the provider options) by association lists from keys to
integers.  Python exceptions are modelled by the inductive `Err`:
`valueError` and `invalidKeywordArguments` (the TypeError that names the
unknown keyword arguments) form the InvalidArgument category of the
documentation, `keyError` (a missing dictionary field) forms the
DecodeError category.  The HTTP GET is modelled by an oracle function
`net` from endpoint, headers and query parameters to the decoded JSON
body; `search` returns, besides its result and the updated client state,
a Bool recording whether the network call was reached.
-/

/-- JSON values, as decoded from a response body. -/
inductive Json where
  | num (n : Int)
  | str (s : String)
  | arr (elems : List Json)
  | obj (fields : List (String × Json))

/-- Python exceptions raised by the clients.  `invalidKeywordArguments ks`
stands for the TypeError whose message formats the offending keyword keys
`ks`; `keyError k` for the KeyError on a missing dictionary key `k`;
`typeError` for other TypeErrors (subscripting or iterating a value of
the wrong shape). -/
inductive Err where
  | valueError (msg : String)
  | invalidKeywordArguments (keys : List String)
  | keyError (key : String)
  | typeError (msg : String)
deriving DecidableEq

/-- The InvalidArgument category of the documentation: ValueError, or the TypeError
naming unknown keyword arguments. -/
def Err.isInvalidArgument : Err → Bool
  | .valueError _ => true
  | .invalidKeywordArguments _ => true
  | _ => false

/-- The DecodeError category of the documentation: a missing expected field. -/
def Err.isDecodeError : Err → Bool
  | .keyError _ => true
  | _ => false

/-- First-match lookup in an association list (Python dict read). -/
def lookupKey {α : Type} (k : String) : List (String × α) → Option α
  | [] => none
  | p :: rest => if p.1 = k then some p.2 else lookupKey k rest

/-- Python `d[k]` on a JSON value: KeyError on a missing key of an
object, TypeError when the value is not an object. -/
def Json.getF (j : Json) (k : String) : Except Err Json :=
  match j with
  | .obj fields =>
    match lookupKey k fields with
    | some v => .ok v
    | none => .error (.keyError k)
  | _ => .error (.typeError "value is not subscriptable")

/-- Python `for item in v`: iteration over a JSON array; any other shape
fails (the clients only iterate response arrays). -/
def Json.asArrF : Json → Except Err (List Json)
  | .arr elems => .ok elems
  | _ => .error (.typeError "value is not iterable")

/-- A value of a query-parameter mapping: the base parameters and the
query are strings, the pagination options are integers. -/
inductive PVal where
  | str (s : String)
  | int (n : Int)
deriving DecidableEq

/-- Keyword arguments passed to `search` / `_check_value`: the provider
options, integer-valued. -/
abbrev Kwargs : Type := List (String × Int)

/-- An option bag holding a single optional integer key: empty when the
value is absent, a one-entry mapping otherwise (used to quantify over
the presence of one provider option in theorem statements). -/
def optKwarg (k : String) : Option Int → List (String × Int)
  | none => []
  | some n => [(k, n)]

/-- Python `d[k] = v` on an association list: replace in place if the key
is present, append otherwise. -/
def dictSet {α : Type} (d : List (String × α)) (k : String) (v : α) :
    List (String × α) :=
  if d.any (fun p => p.1 = k) then
    d.map (fun p => if p.1 = k then (k, v) else p)
  else
    d ++ [(k, v)]

/-- Python `d.update(u)`: set each key of `u` in order. -/
def dictUpdate {α : Type} (d : List (String × α)) :
    List (String × α) → List (String × α)
  | [] => d
  | p :: rest => dictUpdate (dictSet d p.1 p.2) rest

/-- The state of a SearchClient instance: configuration fixed at
construction (endpoint, headers, result bounds), the query-parameter
mapping `params`, and the held last response. -/
structure Client where
  headers : List (String × String)
  params : List (String × PVal)
  endpoint : String
  max_results_per_q : Int
  min_index : Int
  response : Option Json

/-- The normalized search-result item: each field holds the raw JSON
value stored by `_parse_response`. -/
structure Item where
  type : Json
  width : Json
  height : Json
  size : Json
  url : Json
  hostPage : Json

/-- The item-list loop shared by both `_parse_response` methods: apply
`f` to each entry in order, stopping at the first failure. -/
def mapItems (f : Json → Except Err Item) : List Json → Except Err (List Item)
  | [] => .ok []
  | x :: xs => do
    let it ← f x
    let rest ← mapItems f xs
    pure (it :: rest)

/-- SearchClient.search: reject a falsy query (None or empty), run the
adapter hook `check` on the options, then merge `q=query` and the options
into the instance parameter mapping, issue the GET (oracle `net`), store
the body, and parse it with the adapter hook `parse`.  Returns the
result, the instance state after the call, and whether the network call
was reached. -/
def SearchClient.search {α : Type}
    (check : Client → Kwargs → Except Err Unit)
    (parse : Json → Except Err α)
    (net : String → List (String × String) → List (String × PVal) → Json)
    (c : Client) (query : Option String) (kwargs : Kwargs) :
    Except Err α × Client × Bool :=
  if query = none ∨ query = some "" then
    (.error (.valueError "Expected a query"), c, false)
  else
    match check c kwargs with
    | .error e => (.error e, c, false)
    | .ok _ =>
      let newParams :=
        dictUpdate c.params
          (("q", PVal.str (query.getD "")) ::
            kwargs.map (fun p => (p.1, PVal.int p.2)))
      let body := net c.endpoint c.headers newParams
      let updated := { c with params := newParams, response := some body }
      (parse body, updated, true)

/-- GoogleCustomSearchClient.__init__: requires a non-empty API key and
a non-empty Custom Search Engine id; fixes endpoint, bounds (10 results
per query, min index 1) and base parameters. -/
def GoogleCustomSearchClient.init (cse_id api_key : String) :
    Except Err Client :=
  if api_key = "" then .error (.valueError "Expected an API Key")
  else if cse_id = "" then
    .error (.valueError "Expected a Custom Search Engine ID")
  else .ok
    { headers := []
      params := [("key", .str api_key), ("cx", .str cse_id),
                 ("searchType", .str "image")]
      endpoint := "https://www.googleapis.com/customsearch/v1"
      max_results_per_q := 10
      min_index := 1
      response := none }

/-- GoogleCustomSearchClient._check_value: pop `start` (default 1) and
`num` (no default); reject leftover keys, a missing `num`, `start` below
`min_index`, and `num` outside `[min_index, max_results_per_q]`. -/
def GoogleCustomSearchClient.check_value (c : Client) (kwargs : Kwargs) :
    Except Err Unit :=
  let start := (lookupKey "start" kwargs).getD 1
  let num? := lookupKey "num" kwargs
  let rest := (kwargs.filter (fun p => p.1 ≠ "start")).filter
    (fun p => p.1 ≠ "num")
  if rest ≠ [] then .error (.invalidKeywordArguments (rest.map Prod.fst))
  else
    match num? with
    | none => .error (.valueError "Missing number of results to return.")
    | some num =>
      if start < c.min_index then
        .error (.valueError ("Invalid start index value. Valid values start at "
          ++ toString c.min_index ++ "."))
      else if num > c.max_results_per_q ∨ num < c.min_index then
        .error (.valueError ("Invalid num value. Number of search results to return must"
          ++ " be between " ++ toString c.min_index ++ " and "
          ++ toString c.max_results_per_q ++ ", inclusive."))
      else .ok ()

/-- One entry of GoogleCustomSearchClient._parse_response: the dict
literal built for each item, field accesses in source order. -/
def GoogleCustomSearchClient.parse_item (item : Json) : Except Err Item := do
  let t ← item.getF "mime"
  let w ← (← item.getF "image").getF "width"
  let h ← (← item.getF "image").getF "height"
  let s ← (← item.getF "image").getF "byteSize"
  let u ← item.getF "link"
  let hp ← (← item.getF "image").getF "contextLink"
  pure { type := t, width := w, height := h, size := s, url := u, hostPage := hp }

/-- GoogleCustomSearchClient._parse_response: iterate `response.items`
and collect the normalized items. -/
def GoogleCustomSearchClient.parse_response (body : Json) :
    Except Err (List Item) := do
  let items ← body.getF "items"
  let entries ← items.asArrF
  mapItems GoogleCustomSearchClient.parse_item entries

/-- GoogleCustomSearchClient.search: the base search with the Google
hooks. -/
def GoogleCustomSearchClient.search
    (net : String → List (String × String) → List (String × PVal) → Json)
    (c : Client) (query : Option String) (kwargs : Kwargs) :
    Except Err (List Item) × Client × Bool :=
  SearchClient.search GoogleCustomSearchClient.check_value
    GoogleCustomSearchClient.parse_response net c query kwargs

/-- BingSearchClient.__init__: requires a non-empty API key; fixes the
endpoint, bounds (150 results per query, min index 1) and the
subscription-key header. -/
def BingSearchClient.init (api_key : String) : Except Err Client :=
  if api_key = "" then .error (.valueError "Expected an API Key")
  else .ok
    { headers := [("Ocp-Apim-Subscription-Key", api_key)]
      params := []
      endpoint := "https://api.cognitive.microsoft.com/bing/v7.0/images/search"
      max_results_per_q := 150
      min_index := 1
      response := none }

/-- BingSearchClient._check_value: pop `offset` (default 0) and `count`
(no default); reject leftover keys, a missing `count`, `offset` below
`min_index - 1`, and `count` outside `[min_index, max_results_per_q]`. -/
def BingSearchClient.check_value (c : Client) (kwargs : Kwargs) :
    Except Err Unit :=
  let offset := (lookupKey "offset" kwargs).getD 0
  let count? := lookupKey "count" kwargs
  let rest := (kwargs.filter (fun p => p.1 ≠ "offset")).filter
    (fun p => p.1 ≠ "count")
  if rest ≠ [] then .error (.invalidKeywordArguments (rest.map Prod.fst))
  else
    match count? with
    | none => .error (.valueError "Missing number of results to return.")
    | some count =>
      if offset < c.min_index - 1 then
        .error (.valueError ("Invalid offset index value. Valid values start at "
          ++ toString (c.min_index - 1) ++ "."))
      else if count > c.max_results_per_q ∨ count < c.min_index then
        .error (.valueError ("Invalid count value. Number of search results to return must"
          ++ " be between " ++ toString c.min_index ++ " and "
          ++ toString c.max_results_per_q ++ ", inclusive."))
      else .ok ()

/-- One entry of BingSearchClient._parse_response. -/
def BingSearchClient.parse_item (item : Json) : Except Err Item := do
  let t ← item.getF "encodingFormat"
  let w ← item.getF "width"
  let h ← item.getF "height"
  let s ← item.getF "contentSize"
  let u ← item.getF "contentUrl"
  let hp ← item.getF "hostPageDisplayUrl"
  pure { type := t, width := w, height := h, size := s, url := u, hostPage := hp }

/-- BingSearchClient._parse_response: iterate `response.value`, collect
the normalized items, and return them with `nextOffset` and
`totalEstimatedMatches`. -/
def BingSearchClient.parse_response (body : Json) :
    Except Err (List Item × Json × Json) := do
  let v ← body.getF "value"
  let entries ← v.asArrF
  let items ← mapItems BingSearchClient.parse_item entries
  let nextOffset ← body.getF "nextOffset"
  let total ← body.getF "totalEstimatedMatches"
  pure (items, nextOffset, total)

/-- BingSearchClient.search: the base search with the Bing hooks. -/
def BingSearchClient.search
    (net : String → List (String × String) → List (String × PVal) → Json)
    (c : Client) (query : Option String) (kwargs : Kwargs) :
    Except Err (List Item × Json × Json) × Client × Bool :=
  SearchClient.search BingSearchClient.check_value
    BingSearchClient.parse_response net c query kwargs

/-! ## Theorems -/

/-- C1: For the Custom Search adapter, `_check_value` on an options
mapping holding only the keys `start` and `num` succeeds exactly when
`num` is present with a value in `[1, 10]` and `start`, when present, is
at least 1 (absent `start` defaults to 1); every failure is an
InvalidArgument error. -/
theorem google_check_value_start_num (cse api : String) (c : Client)
    (hc : GoogleCustomSearchClient.init cse api = .ok c)
    (s? n? : Option Int) :
    (GoogleCustomSearchClient.check_value c
        (optKwarg "start" s? ++ optKwarg "num" n?) = .ok () ↔
      (∃ n, n? = some n ∧ 1 ≤ n ∧ n ≤ 10) ∧ ∀ s, s? = some s → 1 ≤ s) ∧
    ∀ e, GoogleCustomSearchClient.check_value c
        (optKwarg "start" s? ++ optKwarg "num" n?) = .error e →
      e.isInvalidArgument = true := by
  unfold GoogleCustomSearchClient.init at hc
  split_ifs at hc
  injection hc with hc
  subst hc
  rcases s? with _ | s <;> rcases n? with _ | n <;>
    simp [GoogleCustomSearchClient.check_value, optKwarg, lookupKey,
      Err.isInvalidArgument] <;>
    split_ifs <;>
    simp_all [Err.isInvalidArgument] <;>
    omega

/-- A concrete Custom Search client, as built by
`GoogleCustomSearchClient.init "id" "key"`. -/
def gClient : Client :=
  { headers := []
    params := [("key", PVal.str "key"), ("cx", PVal.str "id"),
               ("searchType", PVal.str "image")]
    endpoint := "https://www.googleapis.com/customsearch/v1"
    max_results_per_q := 10
    min_index := 1
    response := none }

/-- A concrete Web Image Search client, as built by
`BingSearchClient.init "key"`. -/
def bClient : Client :=
  { headers := [("Ocp-Apim-Subscription-Key", "key")]
    params := []
    endpoint := "https://api.cognitive.microsoft.com/bing/v7.0/images/search"
    max_results_per_q := 150
    min_index := 1
    response := none }

/-- Witness for C1: on the client built from `init "id" "key"`, the
options `start=2, num=5` pass validation. -/
theorem google_check_value_start_num_witness :
    GoogleCustomSearchClient.init "id" "key" = .ok gClient ∧
    GoogleCustomSearchClient.check_value gClient
      (optKwarg "start" (some 2) ++ optKwarg "num" (some 5)) = .ok () :=
  ⟨rfl,
    (google_check_value_start_num "id" "key" gClient rfl (some 2) (some 5)).1.mpr
      ⟨⟨5, rfl, by omega, by omega⟩, fun s hs => by injection hs with hs; omega⟩⟩

/-- C2: For the Web Image Search adapter, `_check_value` on an options
mapping holding only the keys `offset` and `count` succeeds exactly when
`count` is present with a value in `[1, 150]` and `offset`, when
present, is at least 0 (absent `offset` defaults to 0); every failure is
an InvalidArgument error. -/
theorem bing_check_value_offset_count (api : String) (c : Client)
    (hc : BingSearchClient.init api = .ok c)
    (o? n? : Option Int) :
    (BingSearchClient.check_value c
        (optKwarg "offset" o? ++ optKwarg "count" n?) = .ok () ↔
      (∃ n, n? = some n ∧ 1 ≤ n ∧ n ≤ 150) ∧ ∀ o, o? = some o → 0 ≤ o) ∧
    ∀ e, BingSearchClient.check_value c
        (optKwarg "offset" o? ++ optKwarg "count" n?) = .error e →
      e.isInvalidArgument = true := by
  unfold BingSearchClient.init at hc
  split_ifs at hc
  injection hc with hc
  subst hc
  rcases o? with _ | o <;> rcases n? with _ | n <;>
    simp [BingSearchClient.check_value, optKwarg, lookupKey,
      Err.isInvalidArgument] <;>
    split_ifs <;>
    simp_all [Err.isInvalidArgument] <;>
    omega

/-- Witness for C2: on the client built from `init "key"`, the options
`offset=0, count=150` pass validation. -/
theorem bing_check_value_offset_count_witness :
    BingSearchClient.init "key" = .ok bClient ∧
    BingSearchClient.check_value bClient
      (optKwarg "offset" (some 0) ++ optKwarg "count" (some 150)) = .ok () :=
  ⟨rfl,
    (bing_check_value_offset_count "key" bClient rfl (some 0) (some 150)).1.mpr
      ⟨⟨150, rfl, by omega, by omega⟩, fun o ho => by injection ho with ho; omega⟩⟩

/-- The field lookups GoogleCustomSearchClient._parse_response performs
on one fully populated entry of `rawBody.items`. -/
def GoogleEntryHas (e m w h s u hp : Json) : Prop :=
  e.getF "mime" = .ok m ∧ e.getF "link" = .ok u ∧
  ∃ im, e.getF "image" = .ok im ∧ im.getF "width" = .ok w ∧
    im.getF "height" = .ok h ∧ im.getF "byteSize" = .ok s ∧
    im.getF "contextLink" = .ok hp

/-- The field lookups BingSearchClient._parse_response performs on one
fully populated entry of `rawBody.value`. -/
def BingEntryHas (e m w h s u hp : Json) : Prop :=
  e.getF "encodingFormat" = .ok m ∧ e.getF "width" = .ok w ∧
  e.getF "height" = .ok h ∧ e.getF "contentSize" = .ok s ∧
  e.getF "contentUrl" = .ok u ∧ e.getF "hostPageDisplayUrl" = .ok hp

/-- On a fully populated entry, the Google per-item mapping yields the
item with the six remapped fields. -/
theorem google_parse_item_of_has (e m w h s u hp : Json)
    (hE : GoogleEntryHas e m w h s u hp) :
    GoogleCustomSearchClient.parse_item e =
      .ok { type := m, width := w, height := h, size := s, url := u,
            hostPage := hp } := by
  obtain ⟨h1, h2, im, h3, h4, h5, h6, h7⟩ := hE
  simp [GoogleCustomSearchClient.parse_item, h1, h2, h3, h4, h5, h6, h7,
    Bind.bind, Except.bind, Pure.pure, Except.pure]

/-- On a fully populated entry, the Bing per-item mapping yields the
item with the six remapped fields. -/
theorem bing_parse_item_of_has (e m w h s u hp : Json)
    (hE : BingEntryHas e m w h s u hp) :
    BingSearchClient.parse_item e =
      .ok { type := m, width := w, height := h, size := s, url := u,
            hostPage := hp } := by
  obtain ⟨h1, h2, h3, h4, h5, h6⟩ := hE
  simp [BingSearchClient.parse_item, h1, h2, h3, h4, h5, h6,
    Bind.bind, Except.bind, Pure.pure, Except.pure]

/-- When every entry maps successfully, the item loop succeeds and maps
the entries pointwise, preserving order and length. -/
theorem mapItems_ok_of_forall (f : Json → Except Err Item) :
    ∀ l : List Json, (∀ e ∈ l, ∃ it, f e = .ok it) →
      ∃ out, mapItems f l = .ok out ∧ out.length = l.length ∧
        ∀ i, ∀ hi : i < l.length, ∀ ho : i < out.length,
          f l[i] = .ok out[i]
  | [], _ => ⟨[], rfl, rfl, fun i hi _ => absurd hi (by simp)⟩
  | x :: xs, hall => by
    obtain ⟨it, hit⟩ := hall x (by simp)
    obtain ⟨out, hout, hlen, hpt⟩ :=
      mapItems_ok_of_forall f xs (fun e he => hall e (by simp [he]))
    refine ⟨it :: out, ?_, by simp [hlen], ?_⟩
    · simp [mapItems, hit, hout, Bind.bind, Except.bind, Pure.pure,
        Except.pure]
    · intro i hi ho
      cases i with
      | zero => simpa using hit
      | succ j =>
        simpa using hpt j (by simpa using hi) (by simpa using ho)

/-- C3: For every response body whose `items` field is an array of fully
populated entries, the Custom Search parse returns a same-length,
order-preserving list where the i-th item remaps the i-th entry as
{type=mime, width=image.width, height=image.height, size=image.byteSize,
url=link, hostPage=image.contextLink}. -/
theorem google_parse_response_shape (body : Json) (entries : List Json)
    (hb : body.getF "items" = .ok (Json.arr entries))
    (hf : ∀ e ∈ entries, ∃ m w h s u hp, GoogleEntryHas e m w h s u hp) :
    ∃ out, GoogleCustomSearchClient.parse_response body = .ok out ∧
      out.length = entries.length ∧
      ∀ i, ∀ hi : i < entries.length, ∀ ho : i < out.length,
        ∃ m w h s u hp, GoogleEntryHas entries[i] m w h s u hp ∧
          out[i] = { type := m, width := w, height := h, size := s,
                     url := u, hostPage := hp } := by
  obtain ⟨out, hout, hlen, hpt⟩ :=
    mapItems_ok_of_forall GoogleCustomSearchClient.parse_item entries
      (fun e he => by
        obtain ⟨m, w, h, s, u, hp, hE⟩ := hf e he
        exact ⟨_, google_parse_item_of_has e m w h s u hp hE⟩)
  refine ⟨out, ?_, hlen, ?_⟩
  · simp [GoogleCustomSearchClient.parse_response, hb, Json.asArrF, hout,
      Bind.bind, Except.bind]
  · intro i hi ho
    obtain ⟨m, w, h, s, u, hp, hE⟩ := hf entries[i] (entries.getElem_mem hi)
    refine ⟨m, w, h, s, u, hp, hE, ?_⟩
    have hi2 := hpt i hi ho
    rw [google_parse_item_of_has entries[i] m w h s u hp hE] at hi2
    injection hi2 with hi2
    exact hi2.symm

/-- The documented example Custom Search entry. -/
def gEntry : Json :=
  .obj [("mime", .str "image/jpeg"),
        ("image", .obj [("width", .num 100), ("height", .num 50),
                        ("byteSize", .num 2048),
                        ("contextLink", .str "http://host")]),
        ("link", .str "http://img")]

/-- The documented example Custom Search response body. -/
def gBody : Json := .obj [("items", .arr [gEntry])]

/-- Witness for C3: the documented example body parses to the expected
single-item list. -/
theorem google_parse_response_shape_witness :
    ∃ out, GoogleCustomSearchClient.parse_response gBody = .ok out ∧
      out.length = [gEntry].length ∧
      ∀ i, ∀ hi : i < [gEntry].length, ∀ ho : i < out.length,
        ∃ m w h s u hp, GoogleEntryHas [gEntry][i] m w h s u hp ∧
          out[i] = { type := m, width := w, height := h, size := s,
                     url := u, hostPage := hp } := by
  refine google_parse_response_shape gBody [gEntry] rfl ?_
  intro e he
  rw [List.mem_singleton] at he
  subst he
  exact ⟨.str "image/jpeg", .num 100, .num 50, .num 2048,
    .str "http://img", .str "http://host",
    rfl, rfl, .obj [("width", .num 100), ("height", .num 50),
                    ("byteSize", .num 2048),
                    ("contextLink", .str "http://host")],
    rfl, rfl, rfl, rfl, rfl⟩

/-- C4: For every response body whose `value` field is an array of fully
populated entries and which carries `nextOffset` and
`totalEstimatedMatches`, the Web Image Search parse returns the 3-tuple
of the order-preserving remapped item list ({type=encodingFormat,
width=width, height=height, size=contentSize, url=contentUrl,
hostPage=hostPageDisplayUrl}), the nextOffset and the
totalEstimatedMatches. -/
theorem bing_parse_response_shape (body : Json) (entries : List Json)
    (nextOff total : Json)
    (hb : body.getF "value" = .ok (Json.arr entries))
    (hn : body.getF "nextOffset" = .ok nextOff)
    (ht : body.getF "totalEstimatedMatches" = .ok total)
    (hf : ∀ e ∈ entries, ∃ m w h s u hp, BingEntryHas e m w h s u hp) :
    ∃ out, BingSearchClient.parse_response body = .ok (out, nextOff, total) ∧
      out.length = entries.length ∧
      ∀ i, ∀ hi : i < entries.length, ∀ ho : i < out.length,
        ∃ m w h s u hp, BingEntryHas entries[i] m w h s u hp ∧
          out[i] = { type := m, width := w, height := h, size := s,
                     url := u, hostPage := hp } := by
  obtain ⟨out, hout, hlen, hpt⟩ :=
    mapItems_ok_of_forall BingSearchClient.parse_item entries
      (fun e he => by
        obtain ⟨m, w, h, s, u, hp, hE⟩ := hf e he
        exact ⟨_, bing_parse_item_of_has e m w h s u hp hE⟩)
  refine ⟨out, ?_, hlen, ?_⟩
  · simp [BingSearchClient.parse_response, hb, hn, ht, Json.asArrF, hout,
      Bind.bind, Except.bind, Pure.pure, Except.pure]
  · intro i hi ho
    obtain ⟨m, w, h, s, u, hp, hE⟩ := hf entries[i] (entries.getElem_mem hi)
    refine ⟨m, w, h, s, u, hp, hE, ?_⟩
    have hi2 := hpt i hi ho
    rw [bing_parse_item_of_has entries[i] m w h s u hp hE] at hi2
    injection hi2 with hi2
    exact hi2.symm

/-- The documented example Web Image Search entry. -/
def bEntry : Json :=
  .obj [("encodingFormat", .str "png"), ("width", .num 10),
        ("height", .num 20), ("contentSize", .num 500),
        ("contentUrl", .str "u"), ("hostPageDisplayUrl", .str "h")]

/-- The documented example Web Image Search response body. -/
def bBody : Json :=
  .obj [("value", .arr [bEntry]), ("nextOffset", .num 5),
        ("totalEstimatedMatches", .num 999)]

/-- Witness for C4: the documented example body parses to the expected
single-item list together with nextOffset 5 and 999 estimated
matches. -/
theorem bing_parse_response_shape_witness :
    ∃ out, BingSearchClient.parse_response bBody =
        .ok (out, Json.num 5, Json.num 999) ∧
      out.length = [bEntry].length ∧
      ∀ i, ∀ hi : i < [bEntry].length, ∀ ho : i < out.length,
        ∃ m w h s u hp, BingEntryHas [bEntry][i] m w h s u hp ∧
          out[i] = { type := m, width := w, height := h, size := s,
                     url := u, hostPage := hp } := by
  refine bing_parse_response_shape bBody [bEntry] (.num 5) (.num 999)
    rfl rfl rfl ?_
  intro e he
  rw [List.mem_singleton] at he
  subst he
  exact ⟨.str "png", .num 10, .num 20, .num 500, .str "u", .str "h",
    rfl, rfl, rfl, rfl, rfl, rfl⟩

/-- A network oracle returning an empty JSON object for every request. -/
def netStub : String → List (String × String) → List (String × PVal) → Json :=
  fun _ _ _ => Json.obj []

/-- Counterexample to C5: on the client built by `init "id" "key"`, a
first call with options `start=2, num=5` followed by a second call with
only `num=3` leaves `start=2` in the query-parameter mapping used for
the second GET, while the mapping the claim prescribes (base parameters
plus `q` plus the current options) holds no `start` key at all. -/
theorem search_params_stale_key_counterexample :
    GoogleCustomSearchClient.init "id" "key" = .ok gClient ∧
    lookupKey "start"
      (GoogleCustomSearchClient.search netStub
        (GoogleCustomSearchClient.search netStub gClient (some "a")
          [("start", 2), ("num", 5)]).2.1
        (some "b") [("num", 3)]).2.1.params = some (PVal.int 2) ∧
    lookupKey "start"
      (dictUpdate gClient.params
        (("q", PVal.str "b") ::
          ([(("num" : String), (3 : Int))]).map
            (fun p => (p.1, PVal.int p.2)))) = none := by
  refine ⟨rfl, ?_, ?_⟩ <;> decide

/-- C5 amended: a successful `search` leaves endpoint, headers and the
result bounds unchanged, and the query-parameter mapping used for the
GET is the mapping held before the call dict-updated with `q=query` and
the current options — so an option key set by an earlier call and not
overwritten by the current one persists. -/
theorem search_params_update {α : Type}
    (check : Client → Kwargs → Except Err Unit)
    (parse : Json → Except Err α)
    (net : String → List (String × String) → List (String × PVal) → Json)
    (c : Client) (q : String) (kwargs : Kwargs)
    (hq : q ≠ "") (hv : check c kwargs = .ok ()) :
    (SearchClient.search check parse net c (some q) kwargs).2.1.params =
      dictUpdate c.params
        (("q", PVal.str q) :: kwargs.map (fun p => (p.1, PVal.int p.2))) ∧
    (SearchClient.search check parse net c (some q) kwargs).2.1.endpoint =
      c.endpoint ∧
    (SearchClient.search check parse net c (some q) kwargs).2.1.headers =
      c.headers ∧
    (SearchClient.search check parse net c (some q) kwargs).2.1.max_results_per_q =
      c.max_results_per_q ∧
    (SearchClient.search check parse net c (some q) kwargs).2.1.min_index =
      c.min_index := by
  simp [SearchClient.search, hq, hv]

/-- Witness for the amended C5: a Custom Search call with `num=5` on the
freshly built client. -/
theorem search_params_update_witness :
    ("cats" : String) ≠ "" ∧
    GoogleCustomSearchClient.check_value gClient [("num", 5)] = .ok () ∧
    (SearchClient.search GoogleCustomSearchClient.check_value
        GoogleCustomSearchClient.parse_response netStub gClient
        (some "cats") [("num", 5)]).2.1.params =
      dictUpdate gClient.params
        (("q", PVal.str "cats") ::
          ([(("num" : String), (5 : Int))]).map
            (fun p => (p.1, PVal.int p.2))) :=
  ⟨by decide, rfl,
    (search_params_update GoogleCustomSearchClient.check_value
      GoogleCustomSearchClient.parse_response netStub gClient "cats"
      [("num", 5)] (by decide) rfl).1⟩

/-- C6: For both adapters, an options mapping holding any key other than
the recognized ones fails with the InvalidArgument error that names the
offending unknown keys. -/
theorem check_value_unknown_keys (c : Client) (gkw bkw : Kwargs)
    (hg : ∃ p ∈ gkw, p.1 ≠ "start" ∧ p.1 ≠ "num")
    (hb : ∃ p ∈ bkw, p.1 ≠ "offset" ∧ p.1 ≠ "count") :
    (∃ ks, GoogleCustomSearchClient.check_value c gkw =
        .error (.invalidKeywordArguments ks) ∧
      Err.isInvalidArgument (.invalidKeywordArguments ks) = true ∧
      ∀ p ∈ gkw, p.1 ≠ "start" → p.1 ≠ "num" → p.1 ∈ ks) ∧
    (∃ ks, BingSearchClient.check_value c bkw =
        .error (.invalidKeywordArguments ks) ∧
      Err.isInvalidArgument (.invalidKeywordArguments ks) = true ∧
      ∀ p ∈ bkw, p.1 ≠ "offset" → p.1 ≠ "count" → p.1 ∈ ks) := by
  constructor
  · obtain ⟨p, hp, hps, hpn⟩ := hg
    have hmem : p ∈ (gkw.filter (fun q => q.1 ≠ "start")).filter
        (fun q => q.1 ≠ "num") := by
      simp [List.mem_filter, hp, hps, hpn]
    have hrest : (gkw.filter (fun q => q.1 ≠ "start")).filter
        (fun q => q.1 ≠ "num") ≠ [] := by
      intro h0
      rw [h0] at hmem
      exact absurd hmem (List.not_mem_nil p)
    refine ⟨((gkw.filter (fun q => q.1 ≠ "start")).filter
      (fun q => q.1 ≠ "num")).map Prod.fst, ?_, rfl, ?_⟩
    · unfold GoogleCustomSearchClient.check_value
      rw [if_pos hrest]
    · intro q hq hqs hqn
      exact List.mem_map_of_mem Prod.fst (by simp [List.mem_filter, hq, hqs, hqn])
  · obtain ⟨p, hp, hps, hpn⟩ := hb
    have hmem : p ∈ (bkw.filter (fun q => q.1 ≠ "offset")).filter
        (fun q => q.1 ≠ "count") := by
      simp [List.mem_filter, hp, hps, hpn]
    have hrest : (bkw.filter (fun q => q.1 ≠ "offset")).filter
        (fun q => q.1 ≠ "count") ≠ [] := by
      intro h0
      rw [h0] at hmem
      exact absurd hmem (List.not_mem_nil p)
    refine ⟨((bkw.filter (fun q => q.1 ≠ "offset")).filter
      (fun q => q.1 ≠ "count")).map Prod.fst, ?_, rfl, ?_⟩
    · unfold BingSearchClient.check_value
      rw [if_pos hrest]
    · intro q hq hqs hqn
      exact List.mem_map_of_mem Prod.fst (by simp [List.mem_filter, hq, hqs, hqn])

/-- Witness for C6: the single unknown key `foo` (resp. `bar`) is
rejected and named for each adapter. -/
theorem check_value_unknown_keys_witness :
    (∃ p ∈ ([(("foo" : String), (1 : Int))] : Kwargs),
      p.1 ≠ "start" ∧ p.1 ≠ "num") ∧
    (∃ ks, GoogleCustomSearchClient.check_value gClient [("foo", 1)] =
        .error (.invalidKeywordArguments ks) ∧
      Err.isInvalidArgument (.invalidKeywordArguments ks) = true ∧
      ∀ p ∈ ([(("foo" : String), (1 : Int))] : Kwargs),
        p.1 ≠ "start" → p.1 ≠ "num" → p.1 ∈ ks) ∧
    (∃ ks, BingSearchClient.check_value bClient [("bar", 2)] =
        .error (.invalidKeywordArguments ks) ∧
      Err.isInvalidArgument (.invalidKeywordArguments ks) = true ∧
      ∀ p ∈ ([(("bar" : String), (2 : Int))] : Kwargs),
        p.1 ≠ "offset" → p.1 ≠ "count" → p.1 ∈ ks) := by
  have h := check_value_unknown_keys gClient [("foo", 1)] [("bar", 2)]
    ⟨("foo", 1), by simp, by decide, by decide⟩
    ⟨("bar", 2), by simp, by decide, by decide⟩
  have h2 := check_value_unknown_keys bClient [("foo", 1)] [("bar", 2)]
    ⟨("foo", 1), by simp, by decide, by decide⟩
    ⟨("bar", 2), by simp, by decide, by decide⟩
  exact ⟨⟨("foo", 1), by simp, by decide, by decide⟩, h.1, h2.2⟩

/-- C7: `search` with an empty or absent query fails at once with the
InvalidArgument error "Expected a query": the instance is unchanged and
the network call is never reached (third component `false`), whatever
the adapter hooks and the network would do. -/
theorem search_empty_query {α : Type}
    (check : Client → Kwargs → Except Err Unit)
    (parse : Json → Except Err α)
    (net : String → List (String × String) → List (String × PVal) → Json)
    (c : Client) (kwargs : Kwargs) (query : Option String)
    (hq : query = none ∨ query = some "") :
    SearchClient.search check parse net c query kwargs =
      (.error (.valueError "Expected a query"), c, false) ∧
    Err.isInvalidArgument (.valueError "Expected a query") = true := by
  rcases hq with rfl | rfl <;> exact ⟨rfl, rfl⟩

/-- Witness for C7: the Custom Search client rejects an absent query
without reaching the network. -/
theorem search_empty_query_witness :
    ((none : Option String) = none ∨ (none : Option String) = some "") ∧
    GoogleCustomSearchClient.search netStub gClient none [("num", 5)] =
      (.error (.valueError "Expected a query"), gClient, false) :=
  ⟨Or.inl rfl,
    (search_empty_query GoogleCustomSearchClient.check_value
      GoogleCustomSearchClient.parse_response netStub gClient
      [("num", 5)] none (Or.inl rfl)).1⟩

/-- C9: whenever `search` fails during validation — a falsy query, or an
options mapping that the `_check_value` hook of its adapter rejects — the call returns
an error with the instance state exactly as it was (parameter mapping,
held response, configuration) and without reaching the network call. -/
theorem search_validation_atomic {α : Type}
    (check : Client → Kwargs → Except Err Unit)
    (parse : Json → Except Err α)
    (net : String → List (String × String) → List (String × PVal) → Json)
    (c : Client) (query : Option String) (kwargs : Kwargs)
    (h : query = none ∨ query = some "" ∨
      ∃ e, check c kwargs = .error e) :
    ∃ e, SearchClient.search check parse net c query kwargs =
      (.error e, c, false) := by
  by_cases hq : query = none ∨ query = some ""
  · exact ⟨.valueError "Expected a query", by simp [SearchClient.search, hq]⟩
  · rcases h with h1 | h1 | ⟨e, he⟩
    · exact absurd (Or.inl h1) hq
    · exact absurd (Or.inr h1) hq
    · exact ⟨e, by simp [SearchClient.search, hq, he]⟩

/-- Witness for C9: the Custom Search client with an options mapping
missing `num` fails and leaves the instance untouched. -/
theorem search_validation_atomic_witness :
    ((some "cats" : Option String) = none ∨ (some "cats" : Option String) = some "" ∨
      ∃ e, GoogleCustomSearchClient.check_value gClient [] = .error e) ∧
    ∃ e, GoogleCustomSearchClient.search netStub gClient (some "cats") [] =
      (.error e, gClient, false) :=
  ⟨Or.inr (Or.inr ⟨.valueError "Missing number of results to return.", rfl⟩),
    search_validation_atomic GoogleCustomSearchClient.check_value
      GoogleCustomSearchClient.parse_response netStub gClient (some "cats") []
      (Or.inr (Or.inr ⟨.valueError "Missing number of results to return.", rfl⟩))⟩

/-- The item loop propagates the failure of the first failing entry. -/
theorem mapItems_error_of_first (f : Json → Except Err Item) :
    ∀ (pre : List Json) (e : Json) (post : List Json) (err : Err),
      (∀ x ∈ pre, ∃ it, f x = .ok it) → f e = .error err →
      mapItems f (pre ++ e :: post) = .error err
  | [], e, post, err, _, he => by
    simp [mapItems, he, Bind.bind, Except.bind]
  | x :: xs, e, post, err, hall, he => by
    obtain ⟨it, hit⟩ := hall x (by simp)
    have ih := mapItems_error_of_first f xs e post err
      (fun y hy => hall y (by simp [hy])) he
    simp [mapItems, hit, ih, Bind.bind, Except.bind]

/-- C8: for both adapters, when some entry of the response array lacks
an expected field (its per-item mapping raises the KeyError for that
field) and the entries before it are well formed, `_parse_response`
fails with that DecodeError — no default is substituted and no item list
is returned. -/
theorem parse_response_missing_field :
    (∀ (body : Json) (pre : List Json) (e : Json) (post : List Json)
       (k : String),
      body.getF "items" = .ok (Json.arr (pre ++ e :: post)) →
      (∀ x ∈ pre, ∃ it, GoogleCustomSearchClient.parse_item x = .ok it) →
      GoogleCustomSearchClient.parse_item e = .error (.keyError k) →
      GoogleCustomSearchClient.parse_response body =
        .error (.keyError k) ∧
      Err.isDecodeError (.keyError k) = true) ∧
    (∀ (body : Json) (pre : List Json) (e : Json) (post : List Json)
       (k : String),
      body.getF "value" = .ok (Json.arr (pre ++ e :: post)) →
      (∀ x ∈ pre, ∃ it, BingSearchClient.parse_item x = .ok it) →
      BingSearchClient.parse_item e = .error (.keyError k) →
      BingSearchClient.parse_response body = .error (.keyError k) ∧
      Err.isDecodeError (.keyError k) = true) := by
  constructor
  · intro body pre e post k hb hpre he
    refine ⟨?_, rfl⟩
    have hm := mapItems_error_of_first GoogleCustomSearchClient.parse_item
      pre e post (.keyError k) hpre he
    simp [GoogleCustomSearchClient.parse_response, hb, Json.asArrF, hm,
      Bind.bind, Except.bind]
  · intro body pre e post k hb hpre he
    refine ⟨?_, rfl⟩
    have hm := mapItems_error_of_first BingSearchClient.parse_item
      pre e post (.keyError k) hpre he
    simp [BingSearchClient.parse_response, hb, Json.asArrF, hm,
      Bind.bind, Except.bind]

/-- The documented example of a malformed Custom Search entry: no `image`
key. -/
def gEntryNoImage : Json :=
  .obj [("mime", .str "image/jpeg"), ("link", .str "http://img")]

/-- Witness for C8: a body whose only entry lacks the `image` key fails
with the KeyError for `image` (a DecodeError) under the Custom Search
parse, and a body whose only entry is an empty object fails with the
KeyError for `encodingFormat` under the Web Image Search parse. -/
theorem parse_response_missing_field_witness :
    (GoogleCustomSearchClient.parse_response
        (.obj [("items", .arr [gEntryNoImage])]) =
      .error (.keyError "image") ∧
      Err.isDecodeError (.keyError "image") = true) ∧
    (BingSearchClient.parse_response
        (.obj [("value", .arr [.obj []]), ("nextOffset", .num 5)]) =
      .error (.keyError "encodingFormat") ∧
      Err.isDecodeError (.keyError "encodingFormat") = true) :=
  ⟨parse_response_missing_field.1 (.obj [("items", .arr [gEntryNoImage])])
      [] gEntryNoImage [] "image" rfl (fun x hx => absurd hx (by simp)) rfl,
    parse_response_missing_field.2
      (.obj [("value", .arr [.obj []]), ("nextOffset", .num 5)])
      [] (.obj []) [] "encodingFormat" rfl
      (fun x hx => absurd hx (by simp)) rfl⟩

/-- Replacing the value at a different key does not change a lookup. -/
theorem lookupKey_map_replace_ne {α : Type} (k kk : String) (v : α)
    (hk : kk ≠ k) : ∀ d : List (String × α),
    lookupKey k (d.map (fun p => if p.1 = kk then (kk, v) else p)) =
      lookupKey k d := by
  intro d
  induction d with
  | nil => rfl
  | cons p rest ih =>
    by_cases hp : p.1 = kk
    · simp [lookupKey, hp, hk, Ne.symm hk, ih]
    · simp only [List.map_cons, if_neg hp, lookupKey, ih]

/-- Appending an entry for a different key does not change a lookup. -/
theorem lookupKey_append_ne {α : Type} (k kk : String) (v : α)
    (hk : kk ≠ k) : ∀ d : List (String × α),
    lookupKey k (d ++ [(kk, v)]) = lookupKey k d := by
  intro d
  induction d with
  | nil => simp [lookupKey, hk]
  | cons p rest ih =>
    by_cases hp : p.1 = k
    · simp [lookupKey, hp]
    · simp [lookupKey, hp, ih]

/-- Setting a different key does not change a lookup. -/
theorem lookupKey_dictSet_ne {α : Type} (k kk : String) (v : α)
    (hk : kk ≠ k) : ∀ d : List (String × α),
    lookupKey k (dictSet d kk v) = lookupKey k d := by
  intro d
  unfold dictSet
  split_ifs with hmem
  · exact lookupKey_map_replace_ne k kk v hk d
  · exact lookupKey_append_ne k kk v hk d

/-- Dict-updating with a batch that avoids a key does not change that
lookup of that key. -/
theorem lookupKey_dictUpdate_not_mem {α : Type} (k : String) :
    ∀ (u d : List (String × α)), (∀ p ∈ u, p.1 ≠ k) →
    lookupKey k (dictUpdate d u) = lookupKey k d
  | [], d, _ => rfl
  | p :: rest, d, h => by
    rw [dictUpdate, lookupKey_dictUpdate_not_mem k rest _
      (fun q hq => h q (by simp [hq])),
      lookupKey_dictSet_ne k p.1 p.2 (h p (by simp)) d]

/-- After any `search` call whose options avoid the key `k` (with
`k ≠ "q"`), a key absent from the held parameter mapping is still absent
from the mapping used for the GET. -/
theorem search_params_lookup_none {α : Type}
    (check : Client → Kwargs → Except Err Unit)
    (parse : Json → Except Err α)
    (net : String → List (String × String) → List (String × PVal) → Json)
    (c : Client) (query : Option String) (kwargs : Kwargs) (k : String)
    (hc : lookupKey k c.params = none) (hq : k ≠ "q")
    (hkw : ∀ p ∈ kwargs, p.1 ≠ k) :
    lookupKey k
      (SearchClient.search check parse net c query kwargs).2.1.params =
      none := by
  unfold SearchClient.search
  split_ifs with hfalsy
  · exact hc
  · cases hcv : check c kwargs with
    | error e => simp only [hcv]; exact hc
    | ok u =>
      simp only [hcv]
      rw [lookupKey_dictUpdate_not_mem]
      · exact hc
      · intro p hp
        rcases List.mem_cons.mp hp with rfl | hp2
        · exact fun h0 => hq h0.symm
        · obtain ⟨q, hq2, rfl⟩ := List.mem_map.mp hp2
          exact hkw q hq2

/-- C10: the pagination default is only a validation device: a `search`
call whose options omit `start` (Custom Search) or `offset` (Web Image
Search) on a freshly constructed client sends a query-parameter mapping
with no `start` (resp. `offset`) key. -/
theorem search_omitted_option_not_sent (cse api bk : String)
    (cg cb : Client)
    (netg netb : String → List (String × String) → List (String × PVal) → Json)
    (qg qb : Option String) (gkw bkw : Kwargs)
    (hcg : GoogleCustomSearchClient.init cse api = .ok cg)
    (hcb : BingSearchClient.init bk = .ok cb)
    (hgs : ∀ p ∈ gkw, p.1 ≠ "start")
    (hbo : ∀ p ∈ bkw, p.1 ≠ "offset") :
    lookupKey "start"
      (GoogleCustomSearchClient.search netg cg qg gkw).2.1.params = none ∧
    lookupKey "offset"
      (BingSearchClient.search netb cb qb bkw).2.1.params = none := by
  constructor
  · unfold GoogleCustomSearchClient.init at hcg
    split_ifs at hcg
    injection hcg with hcg
    subst hcg
    exact search_params_lookup_none GoogleCustomSearchClient.check_value
      GoogleCustomSearchClient.parse_response netg _ qg gkw "start"
      (by simp [lookupKey]) (by decide) hgs
  · unfold BingSearchClient.init at hcb
    split_ifs at hcb
    injection hcb with hcb
    subst hcb
    exact search_params_lookup_none BingSearchClient.check_value
      BingSearchClient.parse_response netb _ qb bkw "offset"
      rfl (by decide) hbo

/-- Witness for C10: fresh clients, queries with only the required
count option: no `start` / `offset` key is sent. -/
theorem search_omitted_option_not_sent_witness :
    GoogleCustomSearchClient.init "id" "key" = .ok gClient ∧
    BingSearchClient.init "key" = .ok bClient ∧
    lookupKey "start"
      (GoogleCustomSearchClient.search netStub gClient (some "cats")
        [("num", 5)]).2.1.params = none ∧
    lookupKey "offset"
      (BingSearchClient.search netStub bClient (some "cats")
        [("count", 10)]).2.1.params = none := by
  have h := search_omitted_option_not_sent "id" "key" "key" gClient bClient
    netStub netStub (some "cats") (some "cats") [("num", 5)] [("count", 10)]
    rfl rfl
    (fun p hp => by rcases List.mem_singleton.mp hp with rfl; decide)
    (fun p hp => by rcases List.mem_singleton.mp hp with rfl; decide)
  exact ⟨rfl, rfl, h.1, h.2⟩
